import Mathlib

/-!
Verification of the signal-reconciliation core of the Geek_Room_Hackthon
financial research agent.

The repository ships the Next.js frontend (under `frontend/`); the Python
backend that implements the reconciliation core (confidence scorer, risk
aggregator, forecast ensemble combiner, contradiction detector, uncertainty
tracker, scenario simulator) is referenced by the README and Dockerfile but its
source is not part of the inspected tree.  Frontend functions
(`confidenceLabel`, `ConfidenceIndicator`, `RiskAlerts`, the `AgentResponse`
record, the `Scenario` key set) are embedded directly from the TypeScript
source; backend components are modelled from the specification and are marked
as such in their doc comments.

All scores and probabilities are embedded as rationals (`ℚ`); fractional
constants are written with `mkRat` so they evaluate by kernel reduction.
-/

/-- Severity of a detected contradiction (`frontend/lib/types.ts`,
`Contradiction.severity`). -/
inductive ContradictionSeverity
  | critical
  | warning
  | note
deriving DecidableEq

/-- Severity of an uncertainty flag (`frontend/lib/types.ts`,
`Uncertainty.severity`). -/
inductive UncertaintySeverity
  | high
  | medium
  | low
deriving DecidableEq

/-- A detected contradiction between two signals (`frontend/lib/types.ts`). -/
structure Contradiction where
  type : String
  severity : ContradictionSeverity
  signal_a : String
  signal_b : String
  message : String
deriving DecidableEq

/-- A data-quality flag attached to one field (`frontend/lib/types.ts`). -/
structure Uncertainty where
  type : String
  severity : UncertaintySeverity
  field : String
  message : String
deriving DecidableEq

/-- Modelled from the spec: per-contradiction confidence penalty (§4.6);
the backend risk engine implementing it is not in the inspected tree. -/
def contradictionPenalty : ContradictionSeverity → ℚ
  | .critical => mkRat 20 100
  | .warning => mkRat 10 100
  | .note => mkRat 3 100

/-- Modelled from the spec: per-uncertainty confidence penalty (§4.6);
the backend risk engine implementing it is not in the inspected tree. -/
def uncertaintyPenalty : UncertaintySeverity → ℚ
  | .high => mkRat 12 100
  | .medium => mkRat 5 100
  | .low => mkRat 1 100

/-- Numeric rank of a contradiction severity, used to state "worse severity". -/
def contradictionSeverityRank : ContradictionSeverity → Nat
  | .note => 0
  | .warning => 1
  | .critical => 2

/-- Numeric rank of an uncertainty severity, used to state "worse severity". -/
def uncertaintySeverityRank : UncertaintySeverity → Nat
  | .low => 0
  | .medium => 1
  | .high => 2

/-- Clamp a rational to the interval [0, 1]. -/
def clamp01 (x : ℚ) : ℚ := max 0 (min 1 x)

/-- Modelled from the spec: the Confidence Scorer (§4.6) — base 1.0 minus the
summed contradiction and uncertainty penalties, clamped to [0, 1]; the backend
module implementing it is not in the inspected tree. -/
def confidenceScore (cs : List Contradiction) (us : List Uncertainty) : ℚ :=
  clamp01 (1 - ((cs.map fun c => contradictionPenalty c.severity).sum
    + (us.map fun u => uncertaintyPenalty u.severity).sum))

/-- Sub-score / overall risk level (`frontend/lib/types.ts` risk strings,
spec §3 `RiskAssessment`). -/
inductive RiskLevel
  | low
  | moderate
  | high
  | critical
deriving DecidableEq

/-- Modelled from the spec: numeric scale for a risk sub-level (§4.3);
the backend risk engine implementing it is not in the inspected tree. -/
def riskLevelScale : RiskLevel → ℚ
  | .low => 10
  | .moderate => 40
  | .high => 70
  | .critical => 95

/-- Modelled from the spec: equal-weighted (1/3 each) overall risk score over
the leverage, liquidity and earnings-stability sub-levels (§4.3). -/
def overallRiskScore (lev liq earn : RiskLevel) : ℚ :=
  (riskLevelScale lev + riskLevelScale liq + riskLevelScale earn) / 3

/-- Modelled from the spec: bucketing of the overall risk score (§4.3). -/
def bucketRisk (score : ℚ) : RiskLevel :=
  if score < 25 then .low
  else if score < 55 then .moderate
  else if score < 80 then .high
  else .critical

/-- Modelled from the spec: pre-scoring of the earnings-stability
classification into a sub-level; the end-to-end test in §8 fixes
stable ↦ low, and §4.4 treats "volatile" as the risky classification. -/
def earningsStabilityLevel (classification : String) : RiskLevel :=
  if classification = "volatile" then .high
  else if classification = "stable" then .low
  else .moderate

/-- Forecast direction (`frontend/lib/types.ts`, `Insights.forecast_trend`;
spec §3 `ForecastResult.direction`). -/
inductive Direction
  | upward
  | downward
  | neutral
  | unavailable
deriving DecidableEq

/-- The output of one forecasting model, consumed by the ensemble combiner
(spec §4.2). -/
structure ModelOutput where
  prob_up : ℚ
  prob_down : ℚ
  confidence : ℚ
deriving DecidableEq

/-- The side of 0.5 a probability-of-up lies on; exactly 0.5 is neutral
(spec §4.2). -/
def side (p : ℚ) : Direction :=
  if p > mkRat 1 2 then .upward
  else if p < mkRat 1 2 then .downward
  else .neutral

/-- The combined forecast record (spec §3 `ForecastResult`); fields other
than `direction` are absent (`none`) when the ticker is unavailable. -/
structure ForecastResult where
  direction : Direction
  prob_up : Option ℚ
  prob_down : Option ℚ
  confidence : Option ℚ
  models_used : List String
  model_agreement : Option Bool
deriving DecidableEq

/-- Modelled from the spec: the Forecast Ensemble Combiner (§4.2); the backend
module implementing it is not in the inspected tree.  With no model available
it returns `unavailable` with every other field absent; with one model it
passes that model through; with both it averages `prob_up`, takes the side of
the mean as direction, flags agreement iff both models pick the same side, and
scales the mean confidence by 0.85 on disagreement. -/
def combineForecast (a b : Option (String × ModelOutput)) : ForecastResult :=
  match a, b with
  | none, none => ⟨.unavailable, none, none, none, [], none⟩
  | some (na, ma), none =>
      ⟨side ma.prob_up, some ma.prob_up, some ma.prob_down, some ma.confidence, [na], some true⟩
  | none, some (nb, mb) =>
      ⟨side mb.prob_up, some mb.prob_up, some mb.prob_down, some mb.confidence, [nb], some true⟩
  | some (na, ma), some (nb, mb) =>
      let p := (ma.prob_up + mb.prob_up) / 2
      let agree := side ma.prob_up = side mb.prob_up
      let conf := (ma.confidence + mb.confidence) / 2
      ⟨side p, some p, some (1 - p),
        some (if agree then conf else conf * mkRat 85 100), [na, nb], some agree⟩

/-- Input signals read by the Contradiction Detector (spec §4.4). -/
structure DetectorInput where
  ticker : String
  direction : Direction
  overall_risk : RiskLevel
  peer_strong_outperformance : Bool
  model_agreement : Bool
  forecast_confidence : ℚ
  earnings_classification : String
  outlook : String

/-- Modelled from the spec: detector rule 1 (§4.4) — an upward forecast
despite high or critical overall risk is a warning-severity
"forecast_risk_tension" contradiction (type name fixed by the §8 test). -/
def forecastRiskRule (inp : DetectorInput) : Option Contradiction :=
  if inp.direction = .upward ∧ (inp.overall_risk = .high ∨ inp.overall_risk = .critical) then
    some ⟨"forecast_risk_tension", .warning, "forecast.direction", "risk.overall_risk",
      "bullish signal for " ++ inp.ticker ++ " despite elevated risk"⟩
  else none

/-- Modelled from the spec: detector rule 2 (§4.4) — a downward forecast
against strong peer outperformance is critical. -/
def forecastPeerRule (inp : DetectorInput) : Option Contradiction :=
  if inp.direction = .downward ∧ inp.peer_strong_outperformance then
    some ⟨"forecast_peer_conflict", .critical, "forecast.direction", "peer_comparison.summary",
      "forecast for " ++ inp.ticker ++ " contradicts peer-relative strength"⟩
  else none

/-- Modelled from the spec: detector rule 3 (§4.4) — model disagreement with
reported confidence above 0.75 is critical. -/
def agreementConfidenceRule (inp : DetectorInput) : Option Contradiction :=
  if inp.model_agreement = false ∧ inp.forecast_confidence > mkRat 75 100 then
    some ⟨"confidence_disagreement", .critical, "forecast.model_agreement", "forecast.confidence",
      "high confidence stated despite model disagreement for " ++ inp.ticker⟩
  else none

/-- Modelled from the spec: detector rule 4 (§4.4) — volatile earnings with a
positive outlook is a note. -/
def earningsOutlookRule (inp : DetectorInput) : Option Contradiction :=
  if inp.earnings_classification = "volatile" ∧ inp.outlook = "positive" then
    some ⟨"earnings_outlook_tension", .note, "fundamentals.earnings_stability", "insights.outlook",
      "volatile earnings with positive outlook for " ++ inp.ticker⟩
  else none

/-- Modelled from the spec: the Contradiction Detector (§4.4) — a fixed,
ordered rule set, each rule emitting zero or one contradiction, each firing at
most once per query; the backend module implementing it is not in the
inspected tree. -/
def detectContradictions (inp : DetectorInput) : List Contradiction :=
  (forecastRiskRule inp).toList ++ (forecastPeerRule inp).toList
    ++ (agreementConfidenceRule inp).toList ++ (earningsOutlookRule inp).toList

/-- Whether a ticker is inside the trained universe of the forecast models
(the README stores the universe as `stocks_used.pkl`). -/
def tickerInUniverse (univ : List String) (t : String) : Bool :=
  univ.contains t

/-- Modelled from the spec: the Uncertainty Tracker record for a ticker
outside the trained model universe (§4.5) — dedicated type
"out_of_universe", always high severity. -/
def outOfUniverseUncertainty (t : String) : Uncertainty :=
  ⟨"out_of_universe", .high, "forecast",
    "ticker " ++ t ++ " is outside the trained model universe"⟩

/-- Modelled from the spec: the forecast stage of the pipeline (§4.2, §4.5,
§7) — a total function, so a ticker outside the universe produces an
`unavailable` forecast plus one out-of-universe uncertainty instead of
raising; the backend module implementing it is not in the inspected tree. -/
def forecastStage (univ : List String) (t : String)
    (modelA modelB : String → ModelOutput) : ForecastResult × List Uncertainty :=
  if tickerInUniverse univ t then
    (combineForecast (some ("tft", modelA t)) (some ("xgboost", modelB t)), [])
  else
    (combineForecast none none, [outOfUniverseUncertainty t])

/-- The failure raised by the Scenario Stress Simulator on an unknown
scenario key (spec §7). -/
inductive ScenarioError
  | InvalidScenario (key : String)
deriving DecidableEq

/-- A scenario stress result (spec §3 `ScenarioAdjustment`, trimmed to the
fields the simulator derives from the adjustment pair). -/
structure ScenarioAdjustment where
  scenario : String
  revenue_adjustment_pp : ℚ
  margin_adjustment_pp : ℚ
  adjusted_growth : ℚ
  adjusted_margin : ℚ
deriving DecidableEq

/-- The four supported scenario keys; this list coincides with the frontend
`Scenario` union type (`frontend/components/ScenarioSelector.tsx`). -/
def supportedScenarios : List String :=
  ["recession", "high_inflation", "rate_hike", "growth_slowdown"]

/-- The keys of the frontend `SCENARIOS` options array
(`frontend/components/ScenarioSelector.tsx`), in source order. -/
def frontendScenarioKeys : List String :=
  ["recession", "high_inflation", "rate_hike", "growth_slowdown"]

/-- Modelled from the spec: the fixed (revenue_adjustment_pp,
margin_adjustment_pp) pair per supported scenario (§4.7); the spec fixes the
key set but not the numeric pairs, so representative fixed values stand in
for the backend constants, which are not in the inspected tree. -/
def scenarioAdjustmentPair (key : String) : Option (ℚ × ℚ) :=
  if key = "recession" then some (-10, -4)
  else if key = "high_inflation" then some (-4, -3)
  else if key = "rate_hike" then some (-3, -2)
  else if key = "growth_slowdown" then some (-5, -2)
  else none

/-- Modelled from the spec: the Scenario Stress Simulator (§4.7, §7) — a pure
function of the base fundamentals and the scenario key; an unknown key fails
with `InvalidScenario` surfaced to the caller, never silently ignored; the
backend module implementing it is not in the inspected tree. -/
def simulateScenario (key : String) (baseGrowth baseMargin : ℚ) :
    Except ScenarioError ScenarioAdjustment :=
  match scenarioAdjustmentPair key with
  | some pair => .ok ⟨key, pair.1, pair.2, baseGrowth + pair.1, baseMargin + pair.2⟩
  | none => .error (.InvalidScenario key)

/-- Embeds `confidenceLabel` from `frontend/lib/utils.ts`: the qualitative
label derived from the numeric confidence score by fixed thresholds. -/
def confidenceLabel (score : ℚ) : String :=
  if score ≥ mkRat 80 100 then "High"
  else if score ≥ mkRat 65 100 then "Moderate-High"
  else if score ≥ mkRat 50 100 then "Moderate"
  else if score ≥ mkRat 35 100 then "Low"
  else "Very Low"

namespace UI

/-- The `Contradiction` record as the frontend receives it over JSON
(`frontend/lib/types.ts`); at runtime the severity is a plain string. -/
structure Contradiction where
  type : String
  severity : String
  signal_a : String
  signal_b : String
  message : String
deriving DecidableEq

/-- The `Uncertainty` record as the frontend receives it over JSON
(`frontend/lib/types.ts`); at runtime the severity is a plain string, and
the `RiskAlerts` sort comparator explicitly handles unknown severities. -/
structure Uncertainty where
  type : String
  severity : String
  field : String
  message : String
deriving DecidableEq

end UI

/-- What the `ConfidenceIndicator` component renders, as data. -/
structure ConfidenceView where
  label : String
  highSeverity : Nat
  shownContradictions : List UI.Contradiction
  shownHighUncertainties : List UI.Uncertainty
  showsNoIssues : Bool
deriving DecidableEq

/-- Embeds the `ConfidenceIndicator` component (`ConfidenceIndicator.tsx`).
The list parameters of the props are `Option`s because the component coalesces a
null or undefined list with `?? []` before any use; `label` is the
`confidenceLevel ?? confidenceLabel(score)` fallback; `highSeverity` counts
the high-severity uncertainties; the no-issues message is shown when there
are no contradictions and no high-severity uncertainties. -/
def confidenceIndicator (score : ℚ) (confidenceLevel : Option String)
    (contradictions : Option (List UI.Contradiction))
    (uncertainties : Option (List UI.Uncertainty)) : ConfidenceView :=
  let safeContradictions := contradictions.getD []
  let safeUncertainties := uncertainties.getD []
  let highSeverity := (safeUncertainties.filter (fun u => u.severity == "high")).length
  { label := confidenceLevel.getD (confidenceLabel score)
    highSeverity := highSeverity
    shownContradictions := safeContradictions.take 3
    shownHighUncertainties := (safeUncertainties.filter (fun u => u.severity == "high")).take 3
    showsNoIssues := safeContradictions.length == 0 && highSeverity == 0 }

/-- The top-level field names of the `AgentResponse` interface
(`frontend/lib/types.ts`), in declaration order. -/
def agentResponseFields : List String :=
  ["query", "user_id", "ticker", "intent", "intent_confidence", "workflow", "confidence",
   "contradictions", "uncertainties", "company_snapshot", "plain_answer", "insights",
   "investment_memo", "raw_data", "next_analysis", "agent_errors", "status",
   "llm_provider", "llm_model"]

/-- The field names of `AgentResponse.raw_data` (`frontend/lib/types.ts`). -/
def rawDataFields : List String :=
  ["forecast", "fundamentals", "risk", "peer_comparison", "scenario", "memo", "risk_data"]

/-- Follows the words of the spec (§6): the field set the outbound record is
claimed to contain exactly; kept separate from `agentResponseFields`, which
is embedded from the source, so the two can be compared. -/
def specOutboundFields : List String :=
  ["forecast", "risk", "contradictions", "uncertainties", "confidence", "confidence_label"]

/-- The severity order used by the `RiskAlerts` comparator
(`RiskAlerts.tsx`): high = 0, medium = 1, low = 2, anything else 3. -/
def severityRank (s : String) : Nat :=
  if s = "high" then 0
  else if s = "medium" then 1
  else if s = "low" then 2
  else 3

/-- The comparator relation of the `RiskAlerts` sort: earlier means more
severe (smaller rank). -/
def severityLe (a b : UI.Uncertainty) : Prop :=
  severityRank a.severity ≤ severityRank b.severity

instance : DecidableRel severityLe := fun a b =>
  Nat.decLe (severityRank a.severity) (severityRank b.severity)

instance : IsTotal UI.Uncertainty severityLe :=
  ⟨fun a b => Nat.le_total (severityRank a.severity) (severityRank b.severity)⟩

instance : IsTrans UI.Uncertainty severityLe :=
  ⟨fun _ _ _ => Nat.le_trans⟩

/-- Embeds the sort in `RiskAlerts` (`RiskAlerts.tsx`): the component sorts a
copy (`[...uncertainties].sort(...)`) of the uncertainties by the severity
order; insertion sort realises a comparison sort for the comparator. -/
def sortUncertainties (us : List UI.Uncertainty) : List UI.Uncertainty :=
  List.insertionSort severityLe us

/-- Embeds the displayed alert list of `RiskAlerts` (`RiskAlerts.tsx`): the
sorted copy truncated to the first five entries. -/
def riskAlertsDisplayed (us : List UI.Uncertainty) : List UI.Uncertainty :=
  (sortUncertainties us).take 5

theorem contradictionPenalty_nonneg (s : ContradictionSeverity) :
    0 ≤ contradictionPenalty s := by
  cases s <;> decide

theorem uncertaintyPenalty_nonneg (s : UncertaintySeverity) :
    0 ≤ uncertaintyPenalty s := by
  cases s <;> decide

theorem contradictionPenalty_mono {s t : ContradictionSeverity}
    (h : contradictionSeverityRank s ≤ contradictionSeverityRank t) :
    contradictionPenalty s ≤ contradictionPenalty t := by
  revert h
  cases s <;> cases t <;> decide

theorem uncertaintyPenalty_mono {s t : UncertaintySeverity}
    (h : uncertaintySeverityRank s ≤ uncertaintySeverityRank t) :
    uncertaintyPenalty s ≤ uncertaintyPenalty t := by
  revert h
  cases s <;> cases t <;> decide

theorem clamp01_nonneg (x : ℚ) : 0 ≤ clamp01 x := le_max_left 0 _

theorem clamp01_le_one (x : ℚ) : clamp01 x ≤ 1 :=
  max_le (by norm_num) (min_le_left _ _)

theorem clamp01_mono {x y : ℚ} (h : x ≤ y) : clamp01 x ≤ clamp01 y :=
  max_le_max le_rfl (min_le_min le_rfl h)

theorem contradictionPenaltySum_nonneg (cs : List Contradiction) :
    0 ≤ (cs.map fun c => contradictionPenalty c.severity).sum := by
  apply List.sum_nonneg
  intro x hx
  obtain ⟨c, -, rfl⟩ := List.mem_map.1 hx
  exact contradictionPenalty_nonneg _

theorem uncertaintyPenaltySum_nonneg (us : List Uncertainty) :
    0 ≤ (us.map fun u => uncertaintyPenalty u.severity).sum := by
  apply List.sum_nonneg
  intro x hx
  obtain ⟨u, -, rfl⟩ := List.mem_map.1 hx
  exact uncertaintyPenalty_nonneg _

/-- C1: for every input, the confidence score lies in [0, 1]; it equals
base 1.0 minus the summed per-item penalties (critical 0.20 / warning 0.10 /
note 0.03 for contradictions, high 0.12 / medium 0.05 / low 0.01 for
uncertainties) clamped to [0, 1]; adding one more contradiction or
uncertainty never increases the score; and raising the severity of an
existing contradiction or uncertainty never increases the score. -/
theorem C1_confidence_scorer (cs : List Contradiction) (us : List Uncertainty)
    (c c' : Contradiction) (u u' : Uncertainty) :
    (0 ≤ confidenceScore cs us ∧ confidenceScore cs us ≤ 1)
    ∧ confidenceScore cs us =
        clamp01 (1 - ((cs.map fun x => contradictionPenalty x.severity).sum
          + (us.map fun x => uncertaintyPenalty x.severity).sum))
    ∧ (contradictionPenalty .critical = mkRat 20 100
        ∧ contradictionPenalty .warning = mkRat 10 100
        ∧ contradictionPenalty .note = mkRat 3 100
        ∧ uncertaintyPenalty .high = mkRat 12 100
        ∧ uncertaintyPenalty .medium = mkRat 5 100
        ∧ uncertaintyPenalty .low = mkRat 1 100)
    ∧ confidenceScore (c :: cs) us ≤ confidenceScore cs us
    ∧ confidenceScore cs (u :: us) ≤ confidenceScore cs us
    ∧ (contradictionSeverityRank c.severity ≤ contradictionSeverityRank c'.severity →
        confidenceScore (c' :: cs) us ≤ confidenceScore (c :: cs) us)
    ∧ (uncertaintySeverityRank u.severity ≤ uncertaintySeverityRank u'.severity →
        confidenceScore cs (u' :: us) ≤ confidenceScore cs (u :: us)) := by
  refine ⟨⟨clamp01_nonneg _, clamp01_le_one _⟩, rfl, ⟨rfl, rfl, rfl, rfl, rfl, rfl⟩,
    ?_, ?_, ?_, ?_⟩
  · have hp := contradictionPenalty_nonneg c.severity
    simp only [confidenceScore, List.map_cons, List.sum_cons]
    exact clamp01_mono (by linarith)
  · have hp := uncertaintyPenalty_nonneg u.severity
    simp only [confidenceScore, List.map_cons, List.sum_cons]
    exact clamp01_mono (by linarith)
  · intro h
    have hp := contradictionPenalty_mono h
    simp only [confidenceScore, List.map_cons, List.sum_cons]
    exact clamp01_mono (by linarith)
  · intro h
    have hp := uncertaintyPenalty_mono h
    simp only [confidenceScore, List.map_cons, List.sum_cons]
    exact clamp01_mono (by linarith)

/-- Witness for C1: raising one contradiction from note to critical at a
concrete input does not increase the confidence score. -/
theorem C1_confidence_scorer_witness :
    contradictionSeverityRank ContradictionSeverity.note ≤
      contradictionSeverityRank ContradictionSeverity.critical
    ∧ confidenceScore [⟨"forecast_risk_tension", .critical, "a", "b", "m"⟩] []
        ≤ confidenceScore [⟨"forecast_risk_tension", .note, "a", "b", "m"⟩] [] := by
  refine ⟨by decide, ?_⟩
  exact (C1_confidence_scorer [] [] ⟨"forecast_risk_tension", .note, "a", "b", "m"⟩
    ⟨"forecast_risk_tension", .critical, "a", "b", "m"⟩
    ⟨"missing_field", .low, "f", "m"⟩ ⟨"missing_field", .high, "f", "m"⟩).2.2.2.2.2.1 (by decide)

/-- C2: the overall risk score is the equal-weighted mean of the three
sub-levels mapped through low = 10, moderate = 40, high = 70, critical = 95;
the overall risk level is the step function of the score with breakpoints
25 / 55 / 80; leverage = high, liquidity = low, earnings stable gives score 30
and level moderate; score 24.9 buckets to low while 25.0 buckets to moderate. -/
theorem C2_risk_aggregator (lev liq earn : RiskLevel) (s : ℚ) :
    overallRiskScore lev liq earn =
      (riskLevelScale lev + riskLevelScale liq + riskLevelScale earn) / 3
    ∧ (riskLevelScale .low = 10 ∧ riskLevelScale .moderate = 40
        ∧ riskLevelScale .high = 70 ∧ riskLevelScale .critical = 95)
    ∧ (s < 25 → bucketRisk s = .low)
    ∧ (25 ≤ s → s < 55 → bucketRisk s = .moderate)
    ∧ (55 ≤ s → s < 80 → bucketRisk s = .high)
    ∧ (80 ≤ s → bucketRisk s = .critical)
    ∧ overallRiskScore .high .low (earningsStabilityLevel "stable") = 30
    ∧ bucketRisk (overallRiskScore .high .low (earningsStabilityLevel "stable")) = .moderate
    ∧ bucketRisk (mkRat 249 10) = .low
    ∧ bucketRisk 25 = .moderate := by
  have hstable : earningsStabilityLevel "stable" = RiskLevel.low := by decide
  have hscore : overallRiskScore .high .low (earningsStabilityLevel "stable") = 30 := by
    rw [hstable]
    norm_num [overallRiskScore, riskLevelScale]
  refine ⟨rfl, ⟨rfl, rfl, rfl, rfl⟩, ?_, ?_, ?_, ?_, hscore, ?_, by decide, by decide⟩
  · intro h
    unfold bucketRisk
    split_ifs with h1 h2 h3 <;> first | rfl | (exfalso; linarith)
  · intro h h2
    unfold bucketRisk
    split_ifs with h1 h3 h4 <;> first | rfl | (exfalso; linarith)
  · intro h h2
    unfold bucketRisk
    split_ifs with h1 h3 h4 <;> first | rfl | (exfalso; linarith)
  · intro h
    unfold bucketRisk
    split_ifs with h1 h3 h4 <;> first | rfl | (exfalso; linarith)
  · rw [hscore]
    decide

/-- Witness for C2: the step function evaluated through the theorem at the
concrete scores 30 and 90. -/
theorem C2_risk_aggregator_witness :
    bucketRisk 30 = RiskLevel.moderate ∧ bucketRisk 90 = RiskLevel.critical := by
  refine ⟨?_, ?_⟩
  · exact (C2_risk_aggregator .low .low .low 30).2.2.2.1 (by decide) (by decide)
  · exact (C2_risk_aggregator .low .low .low 90).2.2.2.2.2.1 (by decide)

/-- C3: with both models available, agreement on direction (both `prob_up`
on the same side of 0.5) makes `model_agreement` true; and for model A with
`prob_up = 0.9` and model B with `prob_up = 0.1` the combiner returns
`model_agreement = false`, combined `prob_up = 0.5` (the unweighted mean),
and `direction = neutral` (a tie at exactly 0.5 resolves to neutral). -/
theorem C3_forecast_combiner (na nb : String) (ma mb : ModelOutput)
    (h : side ma.prob_up = side mb.prob_up) :
    (combineForecast (some (na, ma)) (some (nb, mb))).model_agreement = some true
    ∧ (combineForecast (some ("tft", ⟨mkRat 9 10, mkRat 1 10, mkRat 8 10⟩))
        (some ("xgboost", ⟨mkRat 1 10, mkRat 9 10, mkRat 8 10⟩))).model_agreement = some false
    ∧ (combineForecast (some ("tft", ⟨mkRat 9 10, mkRat 1 10, mkRat 8 10⟩))
        (some ("xgboost", ⟨mkRat 1 10, mkRat 9 10, mkRat 8 10⟩))).prob_up = some (mkRat 1 2)
    ∧ (combineForecast (some ("tft", ⟨mkRat 9 10, mkRat 1 10, mkRat 8 10⟩))
        (some ("xgboost", ⟨mkRat 1 10, mkRat 9 10, mkRat 8 10⟩))).direction = Direction.neutral := by
  have hmean : (mkRat 9 10 + mkRat 1 10) / 2 = mkRat 1 2 := by
    norm_num [mkRat]
  have hsides : side (mkRat 9 10) ≠ side (mkRat 1 10) := by decide
  refine ⟨?_, ?_, ?_, ?_⟩
  · simp [combineForecast, h]
  · simp [combineForecast, hsides]
  · simp [combineForecast, hmean]
  · simp [combineForecast, hmean]
    decide

/-- Witness for C3: two models that both lean upward are flagged as agreeing. -/
theorem C3_forecast_combiner_witness :
    (combineForecast (some ("tft", ⟨mkRat 6 10, mkRat 4 10, mkRat 9 10⟩))
      (some ("xgboost", ⟨mkRat 7 10, mkRat 3 10, mkRat 5 10⟩))).model_agreement = some true :=
  (C3_forecast_combiner "tft" "xgboost" ⟨mkRat 6 10, mkRat 4 10, mkRat 9 10⟩
    ⟨mkRat 7 10, mkRat 3 10, mkRat 5 10⟩ (by decide)).1

theorem agreementConfidenceRule_type (inp : DetectorInput) (c : Contradiction)
    (h : agreementConfidenceRule inp = some c) : c.type = "confidence_disagreement" := by
  unfold agreementConfidenceRule at h
  split at h
  · cases h
    rfl
  · cases h

theorem earningsOutlookRule_type (inp : DetectorInput) (c : Contradiction)
    (h : earningsOutlookRule inp = some c) : c.type = "earnings_outlook_tension" := by
  unfold earningsOutlookRule at h
  split at h
  · cases h
    rfl
  · cases h

/-- C4: whenever the combined forecast direction is upward and the overall
risk is high or critical, the detector emits exactly one contradiction of
type "forecast_risk_tension", and it has warning severity. -/
theorem C4_contradiction_detector (inp : DetectorInput)
    (hdir : inp.direction = Direction.upward)
    (hrisk : inp.overall_risk = RiskLevel.high ∨ inp.overall_risk = RiskLevel.critical) :
    (detectContradictions inp).filter (fun c => c.type == "forecast_risk_tension") =
      [⟨"forecast_risk_tension", .warning, "forecast.direction", "risk.overall_risk",
        "bullish signal for " ++ inp.ticker ++ " despite elevated risk"⟩]
    ∧ ((detectContradictions inp).filter
        (fun c => c.type == "forecast_risk_tension")).length = 1
    ∧ ∀ c ∈ (detectContradictions inp).filter (fun c => c.type == "forecast_risk_tension"),
        c.severity = ContradictionSeverity.warning := by
  have h1 : forecastRiskRule inp =
      some ⟨"forecast_risk_tension", .warning, "forecast.direction", "risk.overall_risk",
        "bullish signal for " ++ inp.ticker ++ " despite elevated risk"⟩ := by
    unfold forecastRiskRule
    rw [if_pos ⟨hdir, hrisk⟩]
  have h2 : forecastPeerRule inp = none := by
    unfold forecastPeerRule
    rw [if_neg]
    rintro ⟨hd, -⟩
    rw [hdir] at hd
    cases hd
  have h3 : ((agreementConfidenceRule inp).toList.filter
      (fun c => c.type == "forecast_risk_tension")) = [] := by
    cases hh : agreementConfidenceRule inp with
    | none => rfl
    | some c =>
        have ht := agreementConfidenceRule_type inp c hh
        simp +decide [Option.toList, List.filter, ht]
  have h4 : ((earningsOutlookRule inp).toList.filter
      (fun c => c.type == "forecast_risk_tension")) = [] := by
    cases hh : earningsOutlookRule inp with
    | none => rfl
    | some c =>
        have ht := earningsOutlookRule_type inp c hh
        simp +decide [Option.toList, List.filter, ht]
  have hmain : (detectContradictions inp).filter (fun c => c.type == "forecast_risk_tension") =
      [⟨"forecast_risk_tension", .warning, "forecast.direction", "risk.overall_risk",
        "bullish signal for " ++ inp.ticker ++ " despite elevated risk"⟩] := by
    unfold detectContradictions
    rw [h1, h2]
    simp only [List.filter_append, h3, h4]
    simp +decide [Option.toList, List.filter]
  refine ⟨hmain, ?_, ?_⟩
  · rw [hmain]
    rfl
  · intro c hc
    rw [hmain] at hc
    simp only [List.mem_singleton] at hc
    rw [hc]

/-- Witness for C4: the rule fires exactly once on a concrete upward /
high-risk query. -/
theorem C4_contradiction_detector_witness :
    (detectContradictions
      ⟨"AAPL", Direction.upward, RiskLevel.high, false, true, mkRat 6 10, "stable", "positive"⟩).filter
        (fun c => c.type == "forecast_risk_tension") =
      [⟨"forecast_risk_tension", .warning, "forecast.direction", "risk.overall_risk",
        "bullish signal for " ++ "AAPL" ++ " despite elevated risk"⟩] :=
  (C4_contradiction_detector
    ⟨"AAPL", Direction.upward, RiskLevel.high, false, true, mkRat 6 10, "stable", "positive"⟩
    rfl (Or.inl rfl)).1

/-- C5: for a ticker outside the trained universe the pipeline still returns
a value (it never raises): the forecast is exactly `direction = unavailable`
with every other field absent, and exactly one uncertainty is emitted, of
type "out_of_universe" with high severity. -/
theorem C5_out_of_universe (univ : List String) (t : String)
    (modelA modelB : String → ModelOutput)
    (h : tickerInUniverse univ t = false) :
    forecastStage univ t modelA modelB =
      (⟨Direction.unavailable, none, none, none, [], none⟩, [outOfUniverseUncertainty t])
    ∧ (forecastStage univ t modelA modelB).2.length = 1
    ∧ ∀ u ∈ (forecastStage univ t modelA modelB).2,
        u.type = "out_of_universe" ∧ u.severity = UncertaintySeverity.high := by
  have hmain : forecastStage univ t modelA modelB =
      (⟨Direction.unavailable, none, none, none, [], none⟩, [outOfUniverseUncertainty t]) := by
    unfold forecastStage
    rw [h]
    rfl
  refine ⟨hmain, ?_, ?_⟩
  · rw [hmain]
    rfl
  · intro u hu
    rw [hmain] at hu
    simp only [List.mem_singleton] at hu
    rw [hu]
    exact ⟨rfl, rfl⟩

/-- Witness for C5: a ticker outside a concrete universe yields the
unavailable forecast and the single high-severity out-of-universe flag. -/
theorem C5_out_of_universe_witness :
    forecastStage ["AAPL", "MSFT", "TSLA", "GOOGL"] "ZZZZ"
        (fun _ => ⟨mkRat 1 2, mkRat 1 2, mkRat 1 2⟩) (fun _ => ⟨mkRat 1 2, mkRat 1 2, mkRat 1 2⟩) =
      (⟨Direction.unavailable, none, none, none, [], none⟩, [outOfUniverseUncertainty "ZZZZ"]) :=
  (C5_out_of_universe ["AAPL", "MSFT", "TSLA", "GOOGL"] "ZZZZ"
    (fun _ => ⟨mkRat 1 2, mkRat 1 2, mkRat 1 2⟩) (fun _ => ⟨mkRat 1 2, mkRat 1 2, mkRat 1 2⟩)
    (by decide)).1

/-- C6: the simulator succeeds exactly on the four supported keys; any other
key makes the call fail with `InvalidScenario` carrying that key — it is
never silently ignored and never returns a result. -/
theorem C6_invalid_scenario (key : String) (g m : ℚ) :
    ((∃ r, simulateScenario key g m = Except.ok r) ↔ key ∈ supportedScenarios)
    ∧ (key ∉ supportedScenarios →
        simulateScenario key g m = Except.error (ScenarioError.InvalidScenario key))
    ∧ frontendScenarioKeys = supportedScenarios := by
  unfold simulateScenario scenarioAdjustmentPair supportedScenarios
  by_cases h1 : key = "recession"
  · subst h1
    exact ⟨⟨fun _ => by simp, fun _ => ⟨_, rfl⟩⟩, fun hn => absurd (by simp) hn, rfl⟩
  · by_cases h2 : key = "high_inflation"
    · subst h2
      exact ⟨⟨fun _ => by simp, fun _ => ⟨_, rfl⟩⟩, fun hn => absurd (by simp) hn, rfl⟩
    · by_cases h3 : key = "rate_hike"
      · subst h3
        exact ⟨⟨fun _ => by simp, fun _ => ⟨_, rfl⟩⟩, fun hn => absurd (by simp) hn, rfl⟩
      · by_cases h4 : key = "growth_slowdown"
        · subst h4
          exact ⟨⟨fun _ => by simp, fun _ => ⟨_, rfl⟩⟩, fun hn => absurd (by simp) hn, rfl⟩
        · refine ⟨⟨?_, ?_⟩, ?_, rfl⟩
          · rintro ⟨r, hr⟩
            simp only [if_neg h1, if_neg h2, if_neg h3, if_neg h4] at hr
            cases hr
          · intro hmem
            simp only [List.mem_cons, List.not_mem_nil, or_false] at hmem
            rcases hmem with h | h | h | h <;> first
              | exact absurd h h1 | exact absurd h h2 | exact absurd h h3 | exact absurd h h4
          · intro _
            simp only [if_neg h1, if_neg h2, if_neg h3, if_neg h4]

/-- Witness for C6: an unknown key fails with `InvalidScenario`, a supported
key succeeds. -/
theorem C6_invalid_scenario_witness :
    simulateScenario "alien_invasion" 5 12 =
      Except.error (ScenarioError.InvalidScenario "alien_invasion")
    ∧ ∃ r, simulateScenario "recession" 5 12 = Except.ok r := by
  refine ⟨(C6_invalid_scenario "alien_invasion" 5 12).2.1 (by decide), ?_⟩
  exact (C6_invalid_scenario "recession" 5 12).1.2 (by decide)

/-- C7: for every score, the label follows the fixed thresholds of
`confidenceLabel` in `frontend/lib/utils.ts`: ≥ 0.80 "High", ≥ 0.65
"Moderate-High", ≥ 0.50 "Moderate", ≥ 0.35 "Low", otherwise "Very Low". -/
theorem C7_confidence_label (s : ℚ) :
    (mkRat 80 100 ≤ s → confidenceLabel s = "High")
    ∧ (mkRat 65 100 ≤ s → s < mkRat 80 100 → confidenceLabel s = "Moderate-High")
    ∧ (mkRat 50 100 ≤ s → s < mkRat 65 100 → confidenceLabel s = "Moderate")
    ∧ (mkRat 35 100 ≤ s → s < mkRat 50 100 → confidenceLabel s = "Low")
    ∧ (s < mkRat 35 100 → confidenceLabel s = "Very Low") := by
  have k1 : mkRat 35 100 < mkRat 50 100 := by decide
  have k2 : mkRat 50 100 < mkRat 65 100 := by decide
  have k3 : mkRat 65 100 < mkRat 80 100 := by decide
  unfold confidenceLabel
  refine ⟨?_, ?_, ?_, ?_, ?_⟩ <;> intros <;>
    split_ifs <;> first | rfl | (exfalso; simp only [ge_iff_le, not_le] at *; linarith)

/-- Witness for C7: each threshold band evaluated at a concrete score. -/
theorem C7_confidence_label_witness :
    confidenceLabel 1 = "High"
    ∧ confidenceLabel (mkRat 70 100) = "Moderate-High"
    ∧ confidenceLabel (mkRat 55 100) = "Moderate"
    ∧ confidenceLabel (mkRat 40 100) = "Low"
    ∧ confidenceLabel (mkRat 10 100) = "Very Low" := by
  refine ⟨(C7_confidence_label 1).1 (by decide),
    (C7_confidence_label (mkRat 70 100)).2.1 (by decide) (by decide),
    (C7_confidence_label (mkRat 55 100)).2.2.1 (by decide) (by decide),
    (C7_confidence_label (mkRat 40 100)).2.2.2.1 (by decide) (by decide),
    (C7_confidence_label (mkRat 10 100)).2.2.2.2 (by decide)⟩

/-- C8 counterexample: the outbound `AgentResponse` record does not carry the
claimed field set — it has no `confidence_label` field at all, and `forecast`
and `risk` are not top-level fields. -/
theorem C8_outbound_fields_counterexample :
    ¬ (∀ f ∈ specOutboundFields, f ∈ agentResponseFields)
    ∧ "confidence_label" ∉ agentResponseFields
    ∧ "forecast" ∉ agentResponseFields
    ∧ "risk" ∉ agentResponseFields
    ∧ agentResponseFields ≠ specOutboundFields := by decide

/-- C8 amended: the outbound `AgentResponse` carries `confidence`,
`contradictions` and `uncertainties` at top level, nests `forecast` and
`risk` under `raw_data`, and has no `confidence_label` field; the qualitative
label is derived client-side by `confidenceLabel` when no level string is
supplied (the `ConfidenceIndicator` fallback). -/
theorem C8_outbound_fields :
    "confidence" ∈ agentResponseFields
    ∧ "contradictions" ∈ agentResponseFields
    ∧ "uncertainties" ∈ agentResponseFields
    ∧ "raw_data" ∈ agentResponseFields
    ∧ "forecast" ∈ rawDataFields
    ∧ "risk" ∈ rawDataFields
    ∧ "confidence_label" ∉ agentResponseFields
    ∧ ∀ (s : ℚ) (cs : Option (List UI.Contradiction)) (us : Option (List UI.Uncertainty)),
        (confidenceIndicator s none cs us).label = confidenceLabel s := by
  refine ⟨by decide, by decide, by decide, by decide, by decide, by decide, by decide, ?_⟩
  intro s cs us
  rfl

/-- C9 counterexample: it is not true that whenever the contradictions or the
uncertainties prop is null/undefined the component counts zero high-severity
items and shows the no-issues message — with a missing uncertainties list but
a nonempty contradictions list, the no-issues message is not shown. -/
theorem C9_confidence_indicator_counterexample :
    ¬ (∀ (score : ℚ) (lvl : Option String) (cs : Option (List UI.Contradiction))
        (us : Option (List UI.Uncertainty)), (cs = none ∨ us = none) →
        (confidenceIndicator score lvl cs us).highSeverity = 0
          ∧ (confidenceIndicator score lvl cs us).showsNoIssues = true) := by
  intro h
  have hc := (h 1 none (some [⟨"forecast_risk_tension", "warning", "a", "b", "m"⟩]) none
    (Or.inr rfl)).2
  exact absurd hc (by decide)

/-- C9 amended: a null/undefined contradictions or uncertainties prop is
coalesced to the empty list before any use, so the component (a total
function) renders: the view is identical to the view on an empty list; a
missing uncertainties list counts zero high-severity items; the no-issues
message is shown exactly when the coalesced contradictions list is empty and
there are no high-severity uncertainties — in particular whenever the
contradictions list is missing or empty and no uncertainty is high severity,
and in particular whenever both lists are missing. -/
theorem C9_confidence_indicator (score : ℚ) (lvl : Option String)
    (cs : Option (List UI.Contradiction)) (us : Option (List UI.Uncertainty)) :
    confidenceIndicator score lvl none us = confidenceIndicator score lvl (some []) us
    ∧ confidenceIndicator score lvl cs none = confidenceIndicator score lvl cs (some [])
    ∧ (us = none → (confidenceIndicator score lvl cs us).highSeverity = 0)
    ∧ ((confidenceIndicator score lvl cs us).showsNoIssues = true ↔
        (cs.getD [] = [] ∧ (confidenceIndicator score lvl cs us).highSeverity = 0))
    ∧ (cs.getD [] = [] → (confidenceIndicator score lvl cs us).highSeverity = 0 →
        (confidenceIndicator score lvl cs us).showsNoIssues = true)
    ∧ (cs = none → us = none →
        (confidenceIndicator score lvl cs us).highSeverity = 0
          ∧ (confidenceIndicator score lvl cs us).showsNoIssues = true) := by
  have hiff : (confidenceIndicator score lvl cs us).showsNoIssues = true ↔
      (cs.getD [] = [] ∧ (confidenceIndicator score lvl cs us).highSeverity = 0) := by
    simp [confidenceIndicator, Bool.and_eq_true, beq_iff_eq, List.length_eq_zero]
  refine ⟨rfl, rfl, ?_, hiff, fun h1 h2 => hiff.mpr ⟨h1, h2⟩, ?_⟩
  · rintro rfl
    rfl
  · rintro rfl rfl
    exact ⟨rfl, hiff.mpr ⟨rfl, rfl⟩⟩

/-- Witness for C9: with both props missing the message is shown, and a
missing contradictions list with a present uncertainties list holding only a
low-severity item still shows the message. -/
theorem C9_confidence_indicator_witness :
    ((confidenceIndicator (mkRat 9 10) none none none).highSeverity = 0
      ∧ (confidenceIndicator (mkRat 9 10) none none none).showsNoIssues = true)
    ∧ (confidenceIndicator (mkRat 9 10) none none
        (some [⟨"stale_data", "low", "price", "price data is stale"⟩])).showsNoIssues = true := by
  refine ⟨(C9_confidence_indicator (mkRat 9 10) none none none).2.2.2.2.2 rfl rfl, ?_⟩
  exact (C9_confidence_indicator (mkRat 9 10) none none
    (some [⟨"stale_data", "low", "price", "price data is stale"⟩])).2.2.2.2.1 rfl (by decide)

/-- C10: the list `RiskAlerts` displays is the 5-entry prefix of a sorted
copy of the input: the sorted copy is a permutation of the input (so the
input itself — a pure value here — is untouched), it is ordered by
non-increasing severity (high before medium before low, unknown severities
last), and at most 5 entries are shown. -/
theorem C10_risk_alerts (us : List UI.Uncertainty) :
    riskAlertsDisplayed us = (sortUncertainties us).take 5
    ∧ (riskAlertsDisplayed us).length ≤ 5
    ∧ (sortUncertainties us).Perm us
    ∧ (sortUncertainties us).Sorted severityLe
    ∧ riskAlertsDisplayed us ++ (sortUncertainties us).drop 5 = sortUncertainties us := by
  refine ⟨rfl, ?_, ?_, ?_, ?_⟩
  · rw [riskAlertsDisplayed, List.length_take]
    exact min_le_left _ _
  · exact List.perm_insertionSort severityLe us
  · exact List.sorted_insertionSort severityLe us
  · exact List.take_append_drop 5 (sortUncertainties us)
